import Mathlib

/-!
Verification of the type-graphql repository: a shallow embedding of the
server configuration (src/index.ts), the query-complexity plugin, and the
GraphQL resolvers documented in the repository (the auth tutorial's
UserResolver in the sources, and the type-graphql-series resolvers whose
behavior is documented by the README transcripts and the test suites),
together with theorems settling the specification's claims about them.
-/

namespace TG

/-- The process environment: a map from variable names to optional values,
as read through process.env. -/
def Env : Type := String → Option String

/-- From src/index.ts: const isProduction = process.env.NODE_ENV === "production". -/
def isProduction (env : Env) : Bool :=
  env "NODE_ENV" == some "production"

/-- From src/index.ts: the call app.listen(4000, ...) — the port the Express
app listens on, as a function of the process environment.  The source passes
the literal 4000 and reads nothing from the environment. -/
def listenPort (_env : Env) : Nat := 4000

/-- A configuration value is environment-driven when it varies with the
process environment. -/
def dependsOnEnv {α : Type} (f : Env → α) : Prop :=
  ∃ e₁ e₂ : Env, f e₁ ≠ f e₂

/-- Cookie options passed to express-session in src/index.ts. -/
structure CookieOptions where
  httpOnly : Bool
  sameSite : String
  secure : Bool
  maxAge : Nat
deriving DecidableEq

/-- Options passed to the express-session middleware in src/index.ts. -/
structure SessionOptions where
  name : String
  secret : String
  resave : Bool
  saveUninitialized : Bool
  cookie : CookieOptions
deriving DecidableEq

/-- From src/index.ts: the session({...}) configuration, as a function of the
process environment (secure is !isProduction). -/
def sessionOptions (env : Env) : SessionOptions :=
  { name := "qid"
    secret := "aslkdfjoiq12312"
    resave := false
    saveUninitialized := false
    cookie :=
      { httpOnly := true
        sameSite := "none"
        secure := !(isProduction env)
        maxAge := 1000 * 60 * 60 * 24 * 7 * 365 } }

/-- A field of a requested GraphQL operation: its name, the optional
complexity recorded in the schema field's extensions (set through
type-graphql's complexity option), and its sub-selection. -/
inductive GQLField : Type where
  | node (name : String) (ext : Option Nat) (children : List GQLField)

mutual
/-- graphql-query-complexity as configured in src/index.ts: the estimators run
in order and the first numeric value wins.  fieldExtensionsEstimator returns
the complexity stored in the field's extensions when present; otherwise
simpleEstimator with defaultComplexity 1 assigns 1 plus the complexity of the
sub-selection. -/
def fieldComplexity : GQLField → Nat
  | .node _ ext children =>
    match ext with
    | some c => c
    | none => 1 + fieldsComplexity children
/-- Complexity of a selection set: the sum of its fields' complexities. -/
def fieldsComplexity : List GQLField → Nat
  | [] => 0
  | f :: fs => fieldComplexity f + fieldsComplexity fs
end

/-- From src/index.ts: let maximumComplexity: number = 20. -/
def maximumComplexity : Nat := 20

/-- From src/index.ts: the didResolveOperation hook computes the complexity of
the requested operation and throws exactly when it exceeds maximumComplexity. -/
def didResolveOperation (operation : List GQLField) : Except String Unit :=
  let complexity := fieldsComplexity operation
  if complexity > maximumComplexity then
    Except.error ("Sorry, too complicated query! " ++ toString complexity ++
      " is over 20 that is the max allowed complexity.")
  else
    Except.ok ()

namespace argon2

/-- Model of the external password-hashing library (argon2 / bcrypt): hashing
tags the digest so that a digest is never equal to any plaintext, and a
stored digest determines at most one plaintext (injectivity), which is what
verify relies on. -/
def hash (password : String) : String := "$argon2id$" ++ password

/-- Model of argon2.verify(hashed, plain): succeeds exactly when the stored
digest is the hash of the submitted plaintext. -/
def verify (hashed plain : String) : Bool := hashed == hash plain

end argon2

namespace Auth

/-- The User entity of the auth tutorial (src/unnamed/part_000): id,
unique username, stored (hashed) password.  The createdAt/updatedAt
timestamp columns play no role in any claim and are omitted. -/
structure User where
  id : Nat
  username : String
  password : String
deriving DecidableEq

/-- The FieldError object type from src/unnamed/part_000. -/
structure FieldError where
  field : String
  message : String
deriving DecidableEq

/-- The UserResponse object type from src/unnamed/part_000: either a list of
errors or a user. -/
structure UserResponse where
  errors : Option (List FieldError)
  user : Option User
deriving DecidableEq

/-- The UsernamePasswordInput input type from src/unnamed/part_000. -/
structure UsernamePasswordInput where
  username : String
  password : String
deriving DecidableEq

/-- The server-side session record referenced by the cookie: an optional
stored user identifier (req.session.userId). -/
structure Session where
  userId : Option Nat
deriving DecidableEq

/-- The user table behind TypeORM's User entity, with the generated-column
counter for primary keys. -/
structure DB where
  users : List User
  nextId : Nat
deriving DecidableEq

/-- User.findOne({ username }) from src/unnamed/part_000. -/
def DB.findByUsername (db : DB) (username : String) : Option User :=
  db.users.find? (fun u => u.username == username)

/-- UserResolver.register from src/unnamed/part_000 (the final version with
validation): rejects usernames and passwords of length at most 2, hashes the
password with argon2, and saves the user; a unique-constraint violation
(err.errno === 19) reports "username already taken".  On success the
session stores the new user's id (req.session.userId = user?.id). -/
def register (db : DB) (sess : Session) (options : UsernamePasswordInput) :
    DB × Session × UserResponse :=
  if options.username.length ≤ 2 then
    (db, sess, { errors := some [⟨"username", "length must be greater than 2"⟩], user := none })
  else if options.password.length ≤ 2 then
    (db, sess, { errors := some [⟨"password", "password must be greater than 2"⟩], user := none })
  else
    let hashedPassword := argon2.hash options.password
    if (db.findByUsername options.username).isSome then
      (db, sess, { errors := some [⟨"username", "username already taken"⟩], user := none })
    else
      let user : User := ⟨db.nextId, options.username, hashedPassword⟩
      ({ users := db.users ++ [user], nextId := db.nextId + 1 },
       { userId := some user.id },
       { errors := none, user := some user })

/-- UserResolver.login from src/unnamed/part_000 (the sessions version):
finds the user by username, verifies the submitted password with argon2
against the stored hash, stores the user's id in the session and returns
the user. -/
def login (db : DB) (sess : Session) (options : UsernamePasswordInput) :
    Session × UserResponse :=
  match db.findByUsername options.username with
  | none => (sess, { errors := some [⟨"username", "username doesn't exist"⟩], user := none })
  | some user =>
    if argon2.verify user.password options.password then
      ({ userId := some user.id }, { errors := none, user := some user })
    else
      (sess, { errors := some [⟨"password", "that password doesn't exist"⟩], user := none })

end Auth

namespace Series

/-- The User entity of the type-graphql series (its entity file is not among
the sources; the shape is fixed by the test suites in src/unnamed/part_001
and src/unnamed/part_002 and the README transcripts): id, firstName,
lastName, email, stored hashed password, confirmed flag. -/
structure User where
  id : Nat
  firstName : String
  lastName : String
  email : String
  password : String
  confirmed : Bool
deriving DecidableEq

/-- The RegisterInput input type named by the Register test suites. -/
structure RegisterInput where
  firstName : String
  lastName : String
  email : String
  password : String
deriving DecidableEq

/-- The server-side session record: an optional stored user identifier. -/
structure Session where
  userId : Option Nat
deriving DecidableEq

/-- The user table behind the ORM, with the generated-column counter. -/
structure DB where
  users : List User
  nextId : Nat
deriving DecidableEq

/-- User.findOne({ where: { email } }). -/
def DB.findByEmail (db : DB) (email : String) : Option User :=
  db.users.find? (fun u => u.email == email)

/-- User.findOne(id). -/
def DB.findById (db : DB) (uid : Nat) : Option User :=
  db.users.find? (fun u => u.id == uid)

/-- user.save() on a loaded entity: replaces the row with the same primary
key. -/
def DB.updateUser (db : DB) (u : User) : DB :=
  { db with users := db.users.map (fun v => if v.id == u.id then u else v) }

/-- A class-validator validation error as surfaced by type-graphql: the
"Argument Validation Error" message, the offending property, and the
constraint name/message pairs. -/
structure ValidationError where
  message : String
  property : String
  constraints : List (String × String)
deriving DecidableEq

/-- A GraphQL response envelope: data (null when a resolver threw) plus the
surfaced errors. -/
structure Response (α : Type) where
  data : Option α
  errors : List ValidationError
deriving DecidableEq

/-- Modelled from the spec: the register mutation of the type-graphql series
(its resolver file is not among the sources; only its tests and the README
transcript are).  class-validator runs the IsEmailAlreadyExist constraint on
the email argument: an email already belonging to a stored user is rejected
with the constraint message "Email already in use", which type-graphql
surfaces verbatim as an "Argument Validation Error" with null data and no
row is inserted.  Otherwise the user is stored with the hashed password and
confirmed = false. -/
def register (db : DB) (input : RegisterInput) : DB × Response User :=
  if db.users.any (fun u => u.email == input.email) then
    (db, { data := none,
           errors := [{ message := "Argument Validation Error",
                        property := "email",
                        constraints := [("IsEmailAlreadyExistConstraint", "Email already in use")] }] })
  else
    let user : User := ⟨db.nextId, input.firstName, input.lastName, input.email,
                        argon2.hash input.password, false⟩
    ({ users := db.users ++ [user], nextId := db.nextId + 1 },
     { data := some user, errors := [] })

/-- The redis store holding forgot-password tokens: token key to user id. -/
structure Redis where
  entries : List (String × Nat)
deriving DecidableEq

/-- redis.get(token). -/
def Redis.get (r : Redis) (key : String) : Option Nat :=
  (r.entries.find? (fun p => p.1 == key)).map (fun p => p.2)

/-- redis.del(token). -/
def Redis.del (r : Redis) (key : String) : Redis :=
  ⟨r.entries.filter (fun p => p.1 != key)⟩

/-- Modelled from the spec: the changePassword mutation (its resolver file is
not among the sources; ChangePasswordInput in src/unnamed/part_001 requires
MinLength(5) on the password, and the README transcript documents the flow).
The reset token is looked up in redis; when it maps to a stored user, the
hash of the new password is stored on that user, the token is deleted, and
the user is returned; otherwise nothing changes and null is returned. -/
def changePassword (db : DB) (rds : Redis) (token password : String) :
    DB × Redis × Option User :=
  if password.length < 5 then (db, rds, none)
  else
    match rds.get token with
    | none => (db, rds, none)
    | some uid =>
      match db.findById uid with
      | none => (db, rds, none)
      | some user =>
        let user' : User := { user with password := argon2.hash password }
        (db.updateUser user', rds.del token, some user')

/-- Modelled from the spec: the login mutation of the series (its resolver
file is not among the sources; the README transcripts document it): find the
user by email, verify the submitted password against the stored hash, store
the user's id in the session and return the user; otherwise return null. -/
def login (db : DB) (sess : Session) (email password : String) :
    Session × Option User :=
  match db.findByEmail email with
  | none => (sess, none)
  | some user =>
    if argon2.verify user.password password then
      ({ userId := some user.id }, some user)
    else
      (sess, none)

/-- Modelled from the spec: the isAuth middleware
(src/modules/middleware/isAuth.ts, named by the README stack trace but not
among the sources): it throws Error("not authenticated") when
req.session.userId is unset and passes through otherwise. -/
def isAuth (sess : Session) : Except String Unit :=
  match sess.userId with
  | none => Except.error "not authenticated"
  | some _ => Except.ok ()

/-- A GraphQL response envelope for queries: data (null when a resolver
threw) plus the surfaced error messages. -/
structure QueryResponse (α : Type) where
  data : Option α
  errors : List String
deriving DecidableEq

/-- Modelled from the spec: the hello query guarded by the isAuth middleware;
when the middleware throws, apollo surfaces the message verbatim and the
response data is null. -/
def helloQuery (sess : Session) : QueryResponse String :=
  match isAuth sess with
  | Except.error msg => { data := none, errors := [msg] }
  | Except.ok _ => { data := some "Hello World!", errors := [] }

/-- The me field's selected data, as asserted by the Me test suite
(src/unnamed/part_001): the numeric primary key serialized as an ID string,
plus firstName, lastName and email. -/
structure MeData where
  id : String
  firstName : String
  lastName : String
  email : String
deriving DecidableEq

/-- Modelled from the spec: the me query resolver (its file is not among the
sources; the Me test suite in src/unnamed/part_001 and the README transcripts
document it): with no userId in the session it returns null without raising
an error; with a session userId belonging to a stored user it returns that
user's id, firstName, lastName and email. -/
def meQuery (db : DB) (sess : Session) : QueryResponse (Option MeData) :=
  match sess.userId with
  | none => { data := some none, errors := [] }
  | some uid =>
    match db.findById uid with
    | none => { data := some none, errors := [] }
    | some u =>
      { data := some (some ⟨toString u.id, u.firstName, u.lastName, u.email⟩),
        errors := [] }

end Series

end TG

/-- An empty user table for the auth tutorial, with the generated-id counter
at 1. -/
def db0 : TG.Auth.DB := ⟨[], 1⟩

/-- A fresh session. -/
def sess0 : TG.Auth.Session := ⟨none⟩

/-- The user created by a successful register on db0 with username and
password "swayne1" (the README's example input). -/
def u1 : TG.Auth.User := ⟨1, "swayne1", TG.argon2.hash "swayne1"⟩

/-- The stored user of the README's duplicate-email transcript. -/
def bob : TG.Series.User :=
  ⟨2, "hey", "bob", "bob2@bob.com", TG.argon2.hash "password", true⟩

/-- A series user table holding bob. -/
def sdb0 : TG.Series.DB := ⟨[bob], 3⟩

/-- The user of the README's changePassword transcript. -/
def bobman : TG.Series.User :=
  ⟨6, "bob", "man", "bobman@bob.com", TG.argon2.hash "password", true⟩

/-- A series user table holding bobman. -/
def db6 : TG.Series.DB := ⟨[bobman], 7⟩

/-- A redis store mapping the README's reset token to bobman's id. -/
def rds6 : TG.Series.Redis := ⟨[("a4798836", 6)]⟩

/-- A one-user table for the login witness. -/
def authDb1 : TG.Auth.DB := ⟨[⟨1, "swayne", TG.argon2.hash "swayne"⟩], 2⟩

theorem argon2_hash_ne_plain (p : String) : TG.argon2.hash p ≠ p := by
  intro h
  have h2 := congrArg String.length h
  rw [TG.argon2.hash, String.length_append] at h2
  have h3 : ("$argon2id$" : String).length = 10 := rfl
  omega

theorem argon2_hash_inj {s t : String} (h : TG.argon2.hash s = TG.argon2.hash t) :
    s = t := by
  have h2 := congrArg String.data h
  simp only [TG.argon2.hash, String.data_append] at h2
  exact String.ext (List.append_cancel_left h2)

theorem argon2_verify_hash (p : String) :
    TG.argon2.verify (TG.argon2.hash p) p = true := by
  simp [TG.argon2.verify]


/-- Claim C1 is refuted: the HTTP port the server listens on is not taken
from an environment-driven configuration value — app.listen(4000, ...) in
src/index.ts passes the hardcoded literal 4000, so the listen port does not
vary with the process environment. -/
theorem C1_counterexample : ¬ TG.dependsOnEnv TG.listenPort := by
  rintro ⟨e₁, e₂, h⟩
  exact h rfl

/-- Claim C1 (amended): the production flag is environment-driven (it is read
from NODE_ENV), but for every run of the server the HTTP port it listens on
is the fixed constant 4000, independent of the environment. -/
theorem C1_port_constant_flag_env_driven :
    (∀ e : TG.Env, TG.listenPort e = 4000) ∧ TG.dependsOnEnv TG.isProduction := by
  refine ⟨fun _ => rfl, ⟨fun _ => none, fun _ => some "production", ?_⟩⟩
  decide

/-- Claim C10: the session middleware always issues its cookie under the name
"qid" with httpOnly true, sameSite "none", maxAge 1000*60*60*24*7*365 ms, and
secure set to true exactly when NODE_ENV is not "production". -/
theorem C10_session_cookie_options (env : TG.Env) :
    (TG.sessionOptions env).name = "qid" ∧
    (TG.sessionOptions env).cookie.httpOnly = true ∧
    (TG.sessionOptions env).cookie.sameSite = "none" ∧
    (TG.sessionOptions env).cookie.maxAge = 1000 * 60 * 60 * 24 * 7 * 365 ∧
    ((TG.sessionOptions env).cookie.secure = true ↔
      ¬ env "NODE_ENV" = some "production") := by
  refine ⟨rfl, rfl, rfl, rfl, ?_⟩
  simp [TG.sessionOptions, TG.isProduction]

/-- Claim C8: for every incoming GraphQL operation the server computes its
complexity (field-extensions estimator first, then the simple estimator with
default complexity 1 per field) and the didResolveOperation hook rejects the
operation with an error exactly when that complexity exceeds 20; operations
with complexity at most 20 pass. -/
theorem C8_complexity_gate (operation : List TG.GQLField) :
    ((TG.didResolveOperation operation).isOk = true ↔
      TG.fieldsComplexity operation ≤ TG.maximumComplexity) ∧
    ((∃ msg, TG.didResolveOperation operation = Except.error msg) ↔
      TG.maximumComplexity < TG.fieldsComplexity operation) := by
  by_cases h : TG.maximumComplexity < TG.fieldsComplexity operation
  · have h2 : ¬ TG.fieldsComplexity operation ≤ TG.maximumComplexity := by omega
    simp [TG.didResolveOperation, h, h2, Except.isOk, Except.toBool]
  · have h2 : TG.fieldsComplexity operation ≤ TG.maximumComplexity := by omega
    simp [TG.didResolveOperation, h, h2, Except.isOk, Except.toBool]

/-- Claim C2 as stated is refuted: a register call whose password has length
at most 2 but whose username also has length at most 2 (username "a",
password "b") returns the username FieldError, not the password FieldError. -/
theorem C2_counterexample :
    (TG.Auth.register db0 sess0 ⟨"a", "b"⟩).2.2 =
      { errors := some [⟨"username", "length must be greater than 2"⟩], user := none } ∧
    (TG.Auth.register db0 sess0 ⟨"a", "b"⟩).2.2 ≠
      { errors := some [⟨"password", "password must be greater than 2"⟩], user := none } := by
  constructor
  · decide
  · decide

/-- Claim C2 (amended): for every register call whose username has length at
most 2, the mutation returns a UserResponse containing exactly one FieldError
with field "username" and message "length must be greater than 2" and no
user, and no user record is created; for every call whose username has
length greater than 2 and whose password has length at most 2, it returns
exactly one FieldError with field "password" and message "password must be
greater than 2" and creates no user record (the username check runs first,
so a call failing both checks reports only the username error). -/
theorem C2_register_length_validation (db : TG.Auth.DB) (sess : TG.Auth.Session)
    (options : TG.Auth.UsernamePasswordInput) :
    (options.username.length ≤ 2 →
      TG.Auth.register db sess options =
        (db, sess,
         { errors := some [⟨"username", "length must be greater than 2"⟩], user := none })) ∧
    (2 < options.username.length → options.password.length ≤ 2 →
      TG.Auth.register db sess options =
        (db, sess,
         { errors := some [⟨"password", "password must be greater than 2"⟩], user := none })) := by
  constructor
  · intro h
    simp [TG.Auth.register, h]
  · intro h1 h2
    have h1' : ¬ options.username.length ≤ 2 := by omega
    simp [TG.Auth.register, h1', h2]

/-- Witness for C2_register_length_validation at concrete inputs. -/
theorem C2_witness :
    TG.Auth.register db0 sess0 ⟨"ab", "password"⟩ =
      (db0, sess0,
       { errors := some [⟨"username", "length must be greater than 2"⟩], user := none }) ∧
    TG.Auth.register db0 sess0 ⟨"abc", "pw"⟩ =
      (db0, sess0,
       { errors := some [⟨"password", "password must be greater than 2"⟩], user := none }) :=
  ⟨(C2_register_length_validation db0 sess0 ⟨"ab", "password"⟩).1 (by decide),
   (C2_register_length_validation db0 sess0 ⟨"abc", "pw"⟩).2 (by decide) (by decide)⟩

/-- Claim C3: for every login call whose username matches a stored user and
whose submitted password verifies against that user's stored hashed
credential, login stores the user's identifier in the server-side session
record (req.session.userId = user.id) and returns that user. -/
theorem C3_login_sets_session (db : TG.Auth.DB) (sess : TG.Auth.Session)
    (options : TG.Auth.UsernamePasswordInput) (user : TG.Auth.User)
    (hfind : db.findByUsername options.username = some user)
    (hvalid : TG.argon2.verify user.password options.password = true) :
    TG.Auth.login db sess options =
      ({ userId := some user.id }, { errors := none, user := some user }) := by
  simp [TG.Auth.login, hfind, hvalid]

/-- Witness for C3_login_sets_session at a concrete table and input. -/
theorem C3_witness :
    TG.Auth.login authDb1 sess0 ⟨"swayne", "swayne"⟩ =
      ({ userId := some 1 },
       { errors := none, user := some ⟨1, "swayne", TG.argon2.hash "swayne"⟩ }) :=
  C3_login_sets_session authDb1 sess0 ⟨"swayne", "swayne"⟩
    ⟨1, "swayne", TG.argon2.hash "swayne"⟩ (by decide) (by decide)

/-- Claim C5: for every successful register call, the password stored on the
created User record is the argon2 hash of the submitted password and never
the plaintext submitted password itself. -/
theorem C5_register_stores_hash (db : TG.Auth.DB) (sess : TG.Auth.Session)
    (options : TG.Auth.UsernamePasswordInput) (user : TG.Auth.User)
    (hsuccess : (TG.Auth.register db sess options).2.2.user = some user) :
    user.password = TG.argon2.hash options.password ∧
    user.password ≠ options.password := by
  by_cases h1 : options.username.length ≤ 2
  · simp [TG.Auth.register, h1] at hsuccess
  · by_cases h2 : options.password.length ≤ 2
    · simp [TG.Auth.register, h1, h2] at hsuccess
    · by_cases h3 : (db.findByUsername options.username).isSome
      · simp [TG.Auth.register, h1, h2, h3] at hsuccess
      · simp [TG.Auth.register, h1, h2, h3] at hsuccess
        subst hsuccess
        exact ⟨rfl, argon2_hash_ne_plain options.password⟩

/-- Witness for C5_register_stores_hash at the README's concrete input. -/
theorem C5_witness :
    (TG.Auth.register db0 sess0 ⟨"swayne1", "swayne1"⟩).2.2.user = some u1 ∧
    (u1.password = TG.argon2.hash "swayne1" ∧ u1.password ≠ "swayne1") :=
  ⟨by decide, C5_register_stores_hash db0 sess0 ⟨"swayne1", "swayne1"⟩ u1 (by decide)⟩

/-- Claim C4: for every register call with an email already belonging to a
stored user, the mutation fails with an "Argument Validation Error" whose
constraint message "Email already in use" is surfaced verbatim, the response
data is null, and no new user record is created. -/
theorem C4_register_duplicate_email (db : TG.Series.DB)
    (input : TG.Series.RegisterInput)
    (hdup : db.users.any (fun u => u.email == input.email) = true) :
    TG.Series.register db input =
      (db, { data := none,
             errors := [⟨"Argument Validation Error", "email",
                         [("IsEmailAlreadyExistConstraint", "Email already in use")]⟩] }) := by
  simp [TG.Series.register, hdup]

/-- Witness for C4_register_duplicate_email at the README's concrete input. -/
theorem C4_witness :
    TG.Series.register sdb0 ⟨"Charles", "Kim", "bob2@bob.com", "password"⟩ =
      (sdb0, { data := none,
               errors := [⟨"Argument Validation Error", "email",
                           [("IsEmailAlreadyExistConstraint", "Email already in use")]⟩] }) :=
  C4_register_duplicate_email sdb0 ⟨"Charles", "Kim", "bob2@bob.com", "password"⟩
    (by decide)

/-- Claim C7: for every query guarded by the auth middleware (the hello
query) executed without a logged-in session, the response carries the error
message "not authenticated" surfaced verbatim and its data is null. -/
theorem C7_hello_not_authenticated (sess : TG.Series.Session)
    (h : sess.userId = none) :
    TG.Series.helloQuery sess = { data := none, errors := ["not authenticated"] } := by
  simp [TG.Series.helloQuery, TG.Series.isAuth, h]

/-- Witness for C7_hello_not_authenticated on the empty session. -/
theorem C7_witness :
    TG.Series.helloQuery ⟨none⟩ = { data := none, errors := ["not authenticated"] } :=
  C7_hello_not_authenticated ⟨none⟩ rfl

/-- Claim C9: for every me query executed with no userId in the session, the
result is data with me null and no error raised; for every me query executed
with a session userId belonging to a stored user, the result is that user's
id (serialized as an ID string), firstName, lastName and email. -/
theorem C9_me_query (db : TG.Series.DB) (sess : TG.Series.Session) :
    (sess.userId = none →
      TG.Series.meQuery db sess = { data := some none, errors := [] }) ∧
    (∀ uid u, sess.userId = some uid → db.findById uid = some u →
      TG.Series.meQuery db sess =
        { data := some (some ⟨toString u.id, u.firstName, u.lastName, u.email⟩),
          errors := [] }) := by
  constructor
  · intro h
    simp [TG.Series.meQuery, h]
  · intro uid u h1 h2
    simp [TG.Series.meQuery, h1, h2]

/-- Witness for C9_me_query on a concrete table, with and without a session
userId. -/
theorem C9_witness :
    TG.Series.meQuery sdb0 ⟨none⟩ = { data := some none, errors := [] } ∧
    TG.Series.meQuery sdb0 ⟨some 2⟩ =
      { data := some (some ⟨"2", "hey", "bob", "bob2@bob.com"⟩), errors := [] } :=
  ⟨(C9_me_query sdb0 ⟨none⟩).1 rfl,
   (C9_me_query sdb0 ⟨some 2⟩).2 2 bob rfl (by decide)⟩

/-- Replacing the row with user's primary key by a row w carrying the same id
and email leaves w findable by that email, provided user was findable by it
and no other row shares user's id. -/
theorem series_find_update_by_id (l : List TG.Series.User)
    (user w : TG.Series.User)
    (hfind : l.find? (fun v => v.email == user.email) = some user)
    (hids : ∀ v ∈ l, v.id = user.id → v = user)
    (hwe : w.email = user.email) (hwi : w.id = user.id) :
    (l.map (fun v => if v.id == user.id then w else v)).find?
      (fun v => v.email == user.email) = some w := by
  induction l with
  | nil => simp at hfind
  | cons x xs ih =>
    by_cases hx : (x.email == user.email)
    · rw [List.find?_cons_of_pos (p := fun v : TG.Series.User => v.email == user.email) xs hx] at hfind
      have hxu : x = user := by injection hfind
      subst hxu
      simp only [List.map_cons, beq_self_eq_true, if_true]
      exact List.find?_cons_of_pos _ (by simp [hwe])
    · rw [List.find?_cons_of_neg (p := fun v : TG.Series.User => v.email == user.email) xs hx] at hfind
      have hxid : ¬ ((x.id == user.id) = true) := by
        intro hb
        have hxu : x = user := hids x (List.mem_cons_self x xs) (eq_of_beq hb)
        subst hxu
        exact hx (beq_self_eq_true x.email)
      simp only [List.map_cons, if_neg hxid]
      rw [List.find?_cons_of_neg (p := fun v : TG.Series.User => v.email == user.email) _ hx]
      exact ih hfind (fun v hv hvid => hids v (List.mem_cons_of_mem x hv) hvid)

/-- Wrapper of series_find_update_by_id for DB.updateUser and findByEmail. -/
theorem series_findByEmail_updateUser (db : TG.Series.DB)
    (user w : TG.Series.User)
    (hfind : db.findByEmail user.email = some user)
    (hids : ∀ v ∈ db.users, v.id = user.id → v = user)
    (hwe : w.email = user.email) (hwi : w.id = user.id) :
    (db.updateUser w).findByEmail user.email = some w := by
  show (db.users.map (fun v => if v.id == w.id then w else v)).find?
      (fun v => v.email == user.email) = some w
  rw [show (fun v : TG.Series.User => if v.id == w.id then w else v) =
      (fun v : TG.Series.User => if v.id == user.id then w else v) by
    rw [hwi]]
  exact series_find_update_by_id db.users user w hfind hids hwe hwi

/-- Claim C6: after a changePassword call with a valid reset token and a
genuinely new password (of valid MinLength(5) and different from the old
one) returns the user, a subsequent login with that user's email and the old
password returns null, while a login with the new password returns that
user.  The hypotheses say: the token maps to a stored user which is also the
first user carrying its email, no other row shares its id, and the old
password verified against its stored credential. -/
theorem C6_changePassword_login_roundtrip (db : TG.Series.DB)
    (rds : TG.Series.Redis) (sess : TG.Series.Session)
    (token oldPw newPw : String) (uid : Nat) (user : TG.Series.User)
    (htok : rds.get token = some uid)
    (hid : db.findById uid = some user)
    (hemail : db.findByEmail user.email = some user)
    (hids : ∀ v ∈ db.users, v.id = user.id → v = user)
    (hlen : 5 ≤ newPw.length)
    (h_old : TG.argon2.verify user.password oldPw = true)
    (hdiff : oldPw ≠ newPw) :
    (TG.Series.changePassword db rds token newPw).2.2 =
        some { user with password := TG.argon2.hash newPw } ∧
    (TG.Series.login (TG.Series.changePassword db rds token newPw).1 sess
        user.email oldPw).2 = none ∧
    (TG.Series.login (TG.Series.changePassword db rds token newPw).1 sess
        user.email newPw).2 =
      some { user with password := TG.argon2.hash newPw } := by
  have hnl : ¬ (newPw.length < 5) := by omega
  have hcp : TG.Series.changePassword db rds token newPw =
      (db.updateUser { user with password := TG.argon2.hash newPw },
       rds.del token, some { user with password := TG.argon2.hash newPw }) := by
    simp [TG.Series.changePassword, hnl, htok, hid]
  have hfind' : (db.updateUser { user with password := TG.argon2.hash newPw }).findByEmail
      user.email = some { user with password := TG.argon2.hash newPw } :=
    series_findByEmail_updateUser db user _ hemail hids rfl rfl
  have hbad : TG.argon2.verify (TG.argon2.hash newPw) oldPw = false := by
    rw [TG.argon2.verify]
    rw [beq_eq_false_iff_ne]
    intro he
    exact hdiff (argon2_hash_inj he).symm
  refine ⟨by rw [hcp], ?_, ?_⟩
  · rw [hcp]
    simp only [TG.Series.login, hfind']
    simp [hbad]
  · rw [hcp]
    simp only [TG.Series.login, hfind']
    simp [argon2_verify_hash]

/-- Witness for C6_changePassword_login_roundtrip at the README's concrete
changePassword transcript. -/
theorem C6_witness :
    (TG.Series.changePassword db6 rds6 "a4798836" "password2").2.2 =
        some { bobman with password := TG.argon2.hash "password2" } ∧
    (TG.Series.login (TG.Series.changePassword db6 rds6 "a4798836" "password2").1 ⟨none⟩
        bobman.email "password").2 = none ∧
    (TG.Series.login (TG.Series.changePassword db6 rds6 "a4798836" "password2").1 ⟨none⟩
        bobman.email "password2").2 =
      some { bobman with password := TG.argon2.hash "password2" } :=
  C6_changePassword_login_roundtrip db6 rds6 ⟨none⟩ "a4798836" "password" "password2" 6
    bobman (by decide) (by decide) (by decide) (by decide) (by decide) (by decide)
    (by decide)
